import Mathlib

/-!
Shallow embedding of the routing and session-state core of the Telegram
support bot: the store operations of `src/database.js` and the message
handlers (`bot.on("text")`, `bot.on("voice")`) of `src/server.js`.

Modelling conventions:
* SQL tables become Lean lists of records; `INTEGER PRIMARY KEY AUTOINCREMENT`
  becomes an explicit `nextAgentId` counter in the store state.
* ISO-8601 timestamp strings (which compare lexicographically exactly in
  chronological order) are modelled as `Nat`.
* JavaScript `null` for a resolved target user id is modelled as `0`, which is
  faithful because the source only ever tests the target with the truthiness
  check `if (!targetUserId)`, and `0` and `null` are equally falsy.
* The transport adapter (`bot.telegram.sendMessage` / `sendVoice` to a
  counterparty) is an explicit oracle `send : Int → Payload → Except String Nat`
  returning the platform message id on success; each handler also returns the
  list of counterparty transport calls it attempted.  `ctx.reply` feedback to
  the sender is represented by the `RouteResult` value.
-/

/-- Direction column of the `conversation_logs` table. -/
inductive Direction where
  | user_to_agent
  | agent_to_user
deriving DecidableEq

/-- Row of the `agents` table (`database.js`): surrogate id, unique platform
id, display name, and the active flag (`INTEGER DEFAULT 0`, modelled as `Bool`). -/
structure Agent where
  id : Nat
  telegram_id : Int
  name : String
  is_active : Bool
deriving DecidableEq

/-- Row of the `agent_sessions` table: at most one per agent platform id. -/
structure SessionEntry where
  agent_telegram_id : Int
  current_user_id : Int
  current_user_name : String
deriving DecidableEq

/-- Row of the `message_mappings` table, keyed by the forwarded message id. -/
structure Mapping where
  agent_message_id : Nat
  user_id : Int
  user_name : String
deriving DecidableEq

/-- Row of the `conversation_logs` table. -/
structure LogEntry where
  timestamp : Nat
  user_id : Int
  user_name : String
  agent_id : Nat
  agent_name : String
  direction : Direction
  message : String
deriving DecidableEq

/-- The whole persistent store of `database.js`. -/
structure DB where
  agents : List Agent
  admins : List Int
  sessions : List SessionEntry
  mappings : List Mapping
  logs : List LogEntry
  nextAgentId : Nat
deriving DecidableEq

/-- `isAdmin` (database.js:98): membership test on the `admins` table. -/
def isAdmin (telegramId : Int) (db : DB) : Bool :=
  db.admins.contains telegramId

/-- `addAgent` (database.js:111): insert with `is_active = 0`; the UNIQUE
constraint on `telegram_id` makes the insert fail (caught, `false`) on a
duplicate platform id. -/
def addAgent (telegramId : Int) (name : String) (db : DB) : Bool × DB :=
  if db.agents.any (fun a => a.telegram_id == telegramId) then
    (false, db)
  else
    (true, { db with
      agents := db.agents ++
        [{ id := db.nextAgentId, telegram_id := telegramId,
           name := name, is_active := false }],
      nextAgentId := db.nextAgentId + 1 })

/-- `removeAgent` (database.js:121): look the agent up by surrogate id; if
missing report failure ("Agent not found", modelled as `false`); otherwise
delete the agent row, any `admins` row with its platform id, and any
`agent_sessions` row for it. -/
def removeAgent (agentId : Nat) (db : DB) : Bool × DB :=
  match db.agents.find? (fun a => a.id == agentId) with
  | none => (false, db)
  | some a =>
    (true, { db with
      agents := db.agents.filter (fun x => x.id != agentId),
      admins := db.admins.filter (fun t => t != a.telegram_id),
      sessions := db.sessions.filter (fun s => s.agent_telegram_id != a.telegram_id) })

/-- `setActiveAgent` (database.js:143): if the id is missing report failure;
otherwise `UPDATE agents SET is_active = 0` then `= 1 WHERE id = ?`, i.e.
every row ends with `is_active = (id == agentId)`. -/
def setActiveAgent (agentId : Nat) (db : DB) : Bool × DB :=
  match db.agents.find? (fun a => a.id == agentId) with
  | none => (false, db)
  | some _ =>
    (true, { db with
      agents := db.agents.map (fun a => { a with is_active := a.id == agentId }) })

/-- `deactivateAgent` (database.js:159): clear `is_active` on the target row only. -/
def deactivateAgent (agentId : Nat) (db : DB) : Bool × DB :=
  match db.agents.find? (fun a => a.id == agentId) with
  | none => (false, db)
  | some _ =>
    (true, { db with
      agents := db.agents.map
        (fun a => if a.id == agentId then { a with is_active := false } else a) })

/-- `getActiveAgent` (database.js:174): first row with `is_active = 1`, if any. -/
def getActiveAgent (db : DB) : Option Agent :=
  db.agents.find? (fun a => a.is_active)

/-- `isAgent` (database.js:192). -/
def isAgent (telegramId : Int) (db : DB) : Bool :=
  db.agents.any (fun a => a.telegram_id == telegramId)

/-- `getAgentByTelegramId` (database.js:197). -/
def getAgentByTelegramId (telegramId : Int) (db : DB) : Option Agent :=
  db.agents.find? (fun a => a.telegram_id == telegramId)

/-- `setAgentSession` (database.js:209): delete any existing row for the agent,
then insert the new one (overwrite, not merge). -/
def setAgentSession (agentTelegramId : Int) (userId : Int) (userName : String)
    (db : DB) : DB :=
  { db with sessions :=
      { agent_telegram_id := agentTelegramId, current_user_id := userId,
        current_user_name := userName } ::
      db.sessions.filter (fun s => s.agent_telegram_id != agentTelegramId) }

/-- `getAgentSession` (database.js:219). -/
def getAgentSession (agentTelegramId : Int) (db : DB) : Option SessionEntry :=
  db.sessions.find? (fun s => s.agent_telegram_id == agentTelegramId)

/-- `addMessageMapping` (database.js:230): `INSERT OR REPLACE` keyed by the
forwarded message id. -/
def addMessageMapping (agentMessageId : Nat) (userId : Int) (userName : String)
    (db : DB) : DB :=
  { db with mappings :=
      { agent_message_id := agentMessageId, user_id := userId, user_name := userName } ::
      db.mappings.filter (fun m => m.agent_message_id != agentMessageId) }

/-- `getMessageMapping` (database.js:239). -/
def getMessageMapping (agentMessageId : Nat) (db : DB) : Option Mapping :=
  db.mappings.find? (fun m => m.agent_message_id == agentMessageId)

/-- `logMessage` (database.js:250): append-only insert into `conversation_logs`,
with the wall clock passed explicitly (`new Date().toISOString()`). -/
def logMessage (userId : Int) (userName : String) (agentId : Nat) (agentName : String)
    (direction : Direction) (message : String) (now : Nat) (db : DB) : DB :=
  { db with logs := db.logs ++
      [{ timestamp := now, user_id := userId, user_name := userName,
         agent_id := agentId, agent_name := agentName,
         direction := direction, message := message }] }

/-- The `ORDER BY timestamp DESC` comparison of `getLogs`: most recent first. -/
def tsGe (a b : LogEntry) : Prop := b.timestamp ≤ a.timestamp

instance : DecidableRel tsGe :=
  fun a b => inferInstanceAs (Decidable (b.timestamp ≤ a.timestamp))

instance : IsTotal LogEntry tsGe :=
  ⟨fun a b => Nat.le_total b.timestamp a.timestamp⟩

instance : IsTrans LogEntry tsGe :=
  ⟨fun _ _ _ hab hbc => Nat.le_trans hbc hab⟩

/-- `getLogs` (database.js:259): `WHERE user_id = ?` only when the JavaScript
truthiness test `if (userId)` passes — a `null` or `0` filter selects the
unfiltered query — then `ORDER BY timestamp DESC LIMIT ?`. -/
def getLogs (userId : Option Int) (limit : Nat) (db : DB) : List LogEntry :=
  let rows :=
    match userId with
    | some u => if u == 0 then db.logs else db.logs.filter (fun e => e.user_id == u)
    | none => db.logs
  (List.insertionSort tsGe rows).take limit

/-- Result of the external transcription collaborator for one voice message, as
seen by the caller of `transcribeVoice` (server.js:658): the function catches
every exception itself, so the handler only ever sees a string. -/
inductive TranscriptionOutcome where
  | ok (text : String)
  | failed
  | unconfigured
deriving DecidableEq

/-- `transcribeVoice` (server.js:658): the transcript on success, and a fixed
placeholder string when the adapter throws (`failed`) or when the OpenAI key is
still the placeholder value (`unconfigured`). -/
def transcribeVoice : TranscriptionOutcome → String
  | .ok t => t
  | .failed => "[Error transcribing voice message]"
  | .unconfigured => "[Voice message - please configure OpenAI API key to transcribe]"

/-- Payload of one counterparty transport call. -/
inductive Payload where
  | text (body : String)
  | voice (fileId : String) (caption : Option String)
deriving DecidableEq

/-- One attempted counterparty send (`bot.telegram.sendMessage` / `sendVoice`). -/
structure TransportCall where
  target : Int
  payload : Payload
deriving DecidableEq

/-- Observable outcome of one handler invocation, standing for the `ctx.reply`
feedback the sender receives. -/
inductive RouteResult where
  | commandIgnored
  | adminNotice
  | noReplyTarget
  | agentOffline
  | replySent (targetUserId : Int) (targetUserName : String)
  | replyFailed (errMessage : String)
  | noAgentAvailable
  | forwarded
  | forwardFailed (agentNotStarted : Bool)
  | voiceForwarded
  | voiceForwardFailed
deriving DecidableEq

/-- The `userDisplayName` computed in both user branches (server.js:1051 and
1144): first name (default "Unknown") plus the `@username` in parentheses when
present; `ctx.from.username` is truthiness-tested, so an empty string counts as
absent. -/
def displayName (firstName : Option String) (username : Option String) : String :=
  let userName := firstName.getD "Unknown"
  match username with
  | some u => if u == "" then userName else userName ++ " (@" ++ u ++ ")"
  | none => userName

/-- The `forwardText` built in the text user branch (server.js:1056). -/
def forwardText (senderId : Int) (firstName : Option String) (username : Option String)
    (messageText : String) : String :=
  let userName := firstName.getD "Unknown"
  let userUsername :=
    match username with
    | some u => if u == "" then "" else "@" ++ u
    | none => ""
  "📩 *New message from user:*\n\n👤 User: " ++ userName ++ " " ++ userUsername ++
    " (ID: `" ++ toString senderId ++ "`)\n💬 Message:\n" ++ messageText

/-- The `forwardHeader` caption built in the voice user branch (server.js:1153). -/
def voiceForwardHeader (senderId : Int) (firstName : Option String)
    (username : Option String) (transcript : String) : String :=
  let userName := firstName.getD "Unknown"
  let userUsername :=
    match username with
    | some u => if u == "" then "" else "@" ++ u
    | none => ""
  "📩 *New VOICE message from user:*\n\n👤 User: " ++ userName ++ " " ++ userUsername ++
    " (ID: `" ++ toString senderId ++ "`)\n📝 Transcription:\n_" ++ transcript ++ "_"

/-- The two-tier reply-target resolution duplicated verbatim in the agent
branches of both handlers (server.js:1000 and 1092): first the message mapping
of the threaded reply, then the agent session as fallback.  A `0` first
component models the JavaScript `null` that both truthiness checks
(`if (!targetUserId)`) test for. -/
def resolveTarget (senderId : Int) (replyTo : Option Nat) (db : DB) : Int × String :=
  let fromMapping : Int × String :=
    match replyTo with
    | some rid =>
      match getMessageMapping rid db with
      | some m => (m.user_id, m.user_name)
      | none => (0, "User")
    | none => (0, "User")
  if fromMapping.1 == 0 then
    match getAgentSession senderId db with
    | some s => (s.current_user_id, s.current_user_name)
    | none => fromMapping
  else fromMapping

/-- The JavaScript `messageText.startsWith("/")` command guard of the text
handler (server.js:989), phrased over the character list so that it reduces
definitionally. -/
def startsWithSlash (s : String) : Bool :=
  "/".data.isPrefixOf s.data

/-- The `String.prototype.includes` test, as structural recursion over the
character list: does `needle` occur contiguously in the second list? -/
def charsInclude (needle : List Char) : List Char → Bool
  | [] => needle.isEmpty
  | c :: rest => needle.isPrefixOf (c :: rest) || charsInclude needle rest

/-- The cause test of the text user branch (server.js:1078):
`e.message.includes("chat not found") || e.message.includes("bot was blocked")`. -/
def errIndicatesUnstartedChat (e : String) : Bool :=
  charsInclude "chat not found".data e.data || charsInclude "bot was blocked".data e.data

/-- The `bot.on("text")` handler (server.js:985): commands are ignored, admins
get only a notice, agents get the two-tier reply path, everyone else is an
end-user whose message is forwarded to the active agent, with mapping, session
and log written only after the send succeeded. -/
def handleText (send : Int → Payload → Except String Nat) (now : Nat)
    (senderId : Int) (firstName : Option String) (username : Option String)
    (messageText : String) (replyTo : Option Nat) (db : DB) :
    RouteResult × DB × List TransportCall :=
  if startsWithSlash messageText then (.commandIgnored, db, [])
  else if isAdmin senderId db then (.adminNotice, db, [])
  else if isAgent senderId db then
    let target := resolveTarget senderId replyTo db
    if target.1 == 0 then (.noReplyTarget, db, [])
    else
      match getAgentByTelegramId senderId db with
      | none => (.agentOffline, db, [])
      | some agent =>
        if agent.is_active then
          match send target.1 (.text messageText) with
          | .ok _ =>
            (.replySent target.1 target.2,
             logMessage target.1 target.2 agent.id agent.name .agent_to_user
               messageText now db,
             [{ target := target.1, payload := .text messageText }])
          | .error e =>
            (.replyFailed e, db, [{ target := target.1, payload := .text messageText }])
        else (.agentOffline, db, [])
  else
    match getActiveAgent db with
    | none => (.noAgentAvailable, db, [])
    | some activeAgent =>
      let fwd := forwardText senderId firstName username messageText
      let dn := displayName firstName username
      match send activeAgent.telegram_id (.text fwd) with
      | .ok sentMsgId =>
        (.forwarded,
         logMessage senderId dn activeAgent.id activeAgent.name .user_to_agent
           messageText now
           (setAgentSession activeAgent.telegram_id senderId dn
             (addMessageMapping sentMsgId senderId dn db)),
         [{ target := activeAgent.telegram_id, payload := .text fwd }])
      | .error e =>
        (.forwardFailed (errIndicatesUnstartedChat e), db,
         [{ target := activeAgent.telegram_id, payload := .text fwd }])

/-- The `bot.on("voice")` handler (server.js:1087).  Note the branch order of
the source: the agent branch (line 1091) is checked before the admin branch
(line 1135), the mirror image of the text handler.  The end-user branch first
obtains a transcript (never failing thanks to `transcribeVoice`) and then
forwards the original voice payload with the transcript as caption. -/
def handleVoice (send : Int → Payload → Except String Nat)
    (tr : TranscriptionOutcome) (now : Nat)
    (senderId : Int) (firstName : Option String) (username : Option String)
    (voiceFileId : String) (replyTo : Option Nat) (db : DB) :
    RouteResult × DB × List TransportCall :=
  if isAgent senderId db then
    let target := resolveTarget senderId replyTo db
    if target.1 == 0 then (.noReplyTarget, db, [])
    else
      match getAgentByTelegramId senderId db with
      | none => (.agentOffline, db, [])
      | some agent =>
        if agent.is_active then
          match send target.1 (.voice voiceFileId none) with
          | .ok _ =>
            (.replySent target.1 target.2,
             logMessage target.1 target.2 agent.id agent.name .agent_to_user
               "[Voice Message]" now db,
             [{ target := target.1, payload := .voice voiceFileId none }])
          | .error e =>
            (.replyFailed e, db,
             [{ target := target.1, payload := .voice voiceFileId none }])
        else (.agentOffline, db, [])
  else if isAdmin senderId db then (.adminNotice, db, [])
  else
    match getActiveAgent db with
    | none => (.noAgentAvailable, db, [])
    | some activeAgent =>
      let transcript := transcribeVoice tr
      let caption := voiceForwardHeader senderId firstName username transcript
      let dn := displayName firstName username
      match send activeAgent.telegram_id (.voice voiceFileId (some caption)) with
      | .ok sentMsgId =>
        (.voiceForwarded,
         logMessage senderId dn activeAgent.id activeAgent.name .user_to_agent
           ("[Voice] " ++ transcript) now
           (setAgentSession activeAgent.telegram_id senderId dn
             (addMessageMapping sentMsgId senderId dn db)),
         [{ target := activeAgent.telegram_id, payload := .voice voiceFileId (some caption) }])
      | .error _ =>
        (.voiceForwardFailed, db,
         [{ target := activeAgent.telegram_id, payload := .voice voiceFileId (some caption) }])

/-- Number of agents whose `is_active` flag is set. -/
def activeCount (db : DB) : Nat :=
  db.agents.countP (fun a => a.is_active)

/-- Invariant I1: at most one agent row has `is_active = 1`. -/
def AtMostOneActive (db : DB) : Prop :=
  activeCount db ≤ 1

/-- The PRIMARY KEY constraint of the `agents` table: surrogate ids are
pairwise distinct. -/
def DistinctAgentIds (db : DB) : Prop :=
  db.agents.Pairwise (fun a b => a.id ≠ b.id)

instance (db : DB) : Decidable (AtMostOneActive db) :=
  inferInstanceAs (Decidable (activeCount db ≤ 1))

instance (db : DB) : Decidable (DistinctAgentIds db) :=
  inferInstanceAs (Decidable (db.agents.Pairwise (fun a b : Agent => a.id ≠ b.id)))

/-- The second tier of `resolveTarget` on its own: the agent session, or the
null target when there is none. -/
def sessionFallback (senderId : Int) (db : DB) : Int × String :=
  match getAgentSession senderId db with
  | some s => (s.current_user_id, s.current_user_name)
  | none => (0, "User")

/-- Transport oracle that always succeeds with message id 900. -/
def sendStub : Int → Payload → Except String Nat := fun _ _ => .ok 900

/-- Transport oracle that always fails with a `chat not found` error. -/
def sendFail : Int → Payload → Except String Nat := fun _ _ => .error "chat not found"

/-- A small concrete store used to instantiate the theorems: two agents (only
the second active), one admin, one session, one mapping, one log entry. -/
def dbW : DB :=
  { agents := [⟨1, 10, "Alice", false⟩, ⟨2, 20, "Bea", true⟩],
    admins := [99],
    sessions := [⟨20, 500, "Uma"⟩],
    mappings := [⟨700, 600, "Vik"⟩],
    logs := [⟨5, 500, "Uma", 2, "Bea", .user_to_agent, "hi"⟩],
    nextAgentId := 3 }

/-- A store whose only identity 5 is simultaneously an admin and the active
agent, with a session on file. -/
def dbDual : DB :=
  { agents := [⟨1, 5, "Ava", true⟩],
    admins := [5],
    sessions := [⟨5, 77, "Uri"⟩],
    mappings := [],
    logs := [],
    nextAgentId := 2 }

/-! ### Shared lemmas -/

theorem isAgent_of_getAgentByTelegramId {t : Int} {db : DB} {a : Agent}
    (h : getAgentByTelegramId t db = some a) : isAgent t db = true := by
  have h' : db.agents.find? (fun x => x.telegram_id == t) = some a := h
  have hm : a ∈ db.agents := List.mem_of_find?_eq_some h'
  have hp := List.find?_some h'
  exact List.any_eq_true.mpr ⟨a, hm, hp⟩

theorem resolveTarget_of_mapping {sender : Int} {rid : Nat} {m : Mapping} {db : DB}
    (hm : getMessageMapping rid db = some m) (h0 : m.user_id ≠ 0) :
    resolveTarget sender (some rid) db = (m.user_id, m.user_name) := by
  have h0' : (m.user_id == 0) = false := by simpa using h0
  simp [resolveTarget, hm, h0']

theorem resolveTarget_no_mapping {sender : Int} {replyTo : Option Nat} {db : DB}
    (h : replyTo = none ∨ ∃ rid, replyTo = some rid ∧ getMessageMapping rid db = none) :
    resolveTarget sender replyTo db = sessionFallback sender db := by
  rcases h with h | ⟨rid, hrid, hmiss⟩
  · subst h
    simp only [resolveTarget, sessionFallback]
    cases getAgentSession sender db <;> simp
  · subst hrid
    simp only [resolveTarget, sessionFallback, hmiss]
    cases getAgentSession sender db <;> simp

theorem resolveTarget_none_of_no_session {sender : Int} {replyTo : Option Nat} {db : DB}
    (h : replyTo = none ∨ ∃ rid, replyTo = some rid ∧ getMessageMapping rid db = none)
    (hs : getAgentSession sender db = none) :
    resolveTarget sender replyTo db = (0, "User") := by
  rw [resolveTarget_no_mapping h]
  simp [sessionFallback, hs]

theorem countP_id_le_one {aid : Nat} :
    ∀ {l : List Agent}, l.Pairwise (fun a b => a.id ≠ b.id) →
      l.countP (fun a => a.id == aid) ≤ 1 := by
  intro l
  induction l with
  | nil => intro _; simp
  | cons x xs ih =>
    intro hl
    rcases List.pairwise_cons.mp hl with ⟨hx, hxs⟩
    rw [List.countP_cons]
    by_cases hid : x.id = aid
    · have hz : xs.countP (fun a => a.id == aid) = 0 := by
        rw [List.countP_eq_zero]
        intro b hb hbeq
        have hb' : b.id = aid := by simpa using hbeq
        exact hx b hb (by rw [hid, hb'])
      simp [hz, hid]
    · have hid' : (x.id == aid) = false := by simpa using hid
      simp only [hid', if_false]
      simpa using ih hxs

theorem mem_map_map_active {l : List Agent} {a b : Nat} {x : Agent}
    (hx : x ∈ (l.map (fun y => { y with is_active := y.id == a })).map
      (fun y => { y with is_active := y.id == b })) :
    ∃ z ∈ l, x = { z with is_active := z.id == b } := by
  rcases List.mem_map.mp hx with ⟨y, hy, rfl⟩
  rcases List.mem_map.mp hy with ⟨z, hz, rfl⟩
  exact ⟨z, hz, rfl⟩

/-! ### C9: getLogs bound, filter, ordering -/

/-- C9 (amended): for every nonzero user id filter `u`, `getLogs (some u) n`
returns at most `n` entries, each drawn from the log and carrying user id `u`,
ordered most-recent-first by timestamp, and an empty match yields the empty
list rather than an error; without a filter the same bound and ordering hold
over all entries.  The nonzero restriction is forced by the JavaScript
truthiness test `if (userId)` of database.js:261, which silently discards a
`0` filter — see the counterexample theorem. -/
theorem getLogs_bounded_filtered_sorted :
    (∀ (db : DB) (u : Int) (n : Nat), u ≠ 0 →
      (getLogs (some u) n db).length ≤ n ∧
      (∀ e ∈ getLogs (some u) n db, e.user_id = u ∧ e ∈ db.logs) ∧
      List.Sorted tsGe (getLogs (some u) n db) ∧
      ((∀ e ∈ db.logs, e.user_id ≠ u) → getLogs (some u) n db = [])) ∧
    (∀ (db : DB) (n : Nat),
      (getLogs none n db).length ≤ n ∧
      (∀ e ∈ getLogs none n db, e ∈ db.logs) ∧
      List.Sorted tsGe (getLogs none n db)) := by
  constructor
  · intro db u n hu
    have hu' : (u == 0) = false := by simpa using hu
    have hrows : getLogs (some u) n db =
        (List.insertionSort tsGe (db.logs.filter (fun e => e.user_id == u))).take n := by
      simp [getLogs, hu']
    refine ⟨?_, ?_, ?_, ?_⟩
    · rw [hrows]; exact List.length_take_le n _
    · intro e he
      rw [hrows] at he
      have h1 : e ∈ List.insertionSort tsGe (db.logs.filter (fun x => x.user_id == u)) :=
        List.take_subset n _ he
      have h2 : e ∈ db.logs.filter (fun x => x.user_id == u) :=
        (List.perm_insertionSort tsGe _).mem_iff.mp h1
      have h3 := List.mem_filter.mp h2
      exact ⟨by simpa using h3.2, h3.1⟩
    · rw [hrows]
      exact List.Pairwise.sublist (List.take_sublist n _) (List.sorted_insertionSort tsGe _)
    · intro hnone
      have hfil : db.logs.filter (fun x => x.user_id == u) = [] := by
        rw [List.filter_eq_nil_iff]
        intro e he hbe
        exact hnone e he (by simpa using hbe)
      rw [hrows, hfil]
      simp
  · intro db n
    have hrows : getLogs none n db = (List.insertionSort tsGe db.logs).take n := rfl
    refine ⟨?_, ?_, ?_⟩
    · rw [hrows]; exact List.length_take_le n _
    · intro e he
      rw [hrows] at he
      exact (List.perm_insertionSort tsGe _).mem_iff.mp (List.take_subset n _ he)
    · rw [hrows]
      exact List.Pairwise.sublist (List.take_sublist n _) (List.sorted_insertionSort tsGe _)

/-- C9 witness: the theorem applied at the concrete store `dbW`. -/
theorem getLogs_bounded_filtered_sorted_witness :
    ((getLogs (some 500) 1 dbW).length ≤ 1 ∧
      (∀ e ∈ getLogs (some 500) 1 dbW, e.user_id = 500 ∧ e ∈ dbW.logs) ∧
      List.Sorted tsGe (getLogs (some 500) 1 dbW) ∧
      ((∀ e ∈ dbW.logs, e.user_id ≠ 500) → getLogs (some 500) 1 dbW = [])) ∧
    ((getLogs none 2 dbW).length ≤ 2 ∧
      (∀ e ∈ getLogs none 2 dbW, e ∈ dbW.logs) ∧
      List.Sorted tsGe (getLogs none 2 dbW)) :=
  ⟨getLogs_bounded_filtered_sorted.1 dbW 500 1 (by decide),
   getLogs_bounded_filtered_sorted.2 dbW 2⟩

/-- C9 counterexample: with the filter `user_id = 0` — reachable through the
`/logs 0` admin command, since `parseInt("0")` passes the `isNaN` guard —
`getLogs` ignores the filter and returns entries of other users, so the claim
"every returned entry has user_id equal to U" fails at U = 0. -/
theorem getLogs_zero_filter_cex :
    (getLogs (some 0) 5 dbW).map (fun e => e.user_id) = [500] ∧ (500 : Int) ≠ 0 := by
  decide

/-! ### C4: single-active-agent invariant -/

/-- C4: at most one agent is active at any time: the invariant is preserved by
`addAgent`, `removeAgent` and `deactivateAgent`, and (re)established by
`setActiveAgent` whenever the surrogate ids are distinct (the PRIMARY KEY
guarantee); after `setActiveAgent a` then `setActiveAgent b` with `a ≠ b`,
`getActiveAgent` returns the row with id `b` and every row with id `a` is
inactive; a successful `addAgent` appends exactly one row with
`is_active = false`; `setActiveAgent` of an unknown id fails and leaves the
store unchanged. -/
theorem agent_pool_single_active :
    (∀ (db : DB) (t : Int) (nm : String),
      AtMostOneActive db → AtMostOneActive (addAgent t nm db).2) ∧
    (∀ (db : DB) (aid : Nat),
      AtMostOneActive db → AtMostOneActive (removeAgent aid db).2) ∧
    (∀ (db : DB) (aid : Nat),
      AtMostOneActive db → AtMostOneActive (deactivateAgent aid db).2) ∧
    (∀ (db : DB) (aid : Nat),
      AtMostOneActive db → DistinctAgentIds db →
      AtMostOneActive (setActiveAgent aid db).2) ∧
    (∀ (db : DB) (t : Int) (nm : String),
      (addAgent t nm db).1 = true →
      (addAgent t nm db).2.agents = db.agents ++
        [{ id := db.nextAgentId, telegram_id := t, name := nm, is_active := false }]) ∧
    (∀ (db : DB) (aid : Nat),
      db.agents.find? (fun x => x.id == aid) = none →
      setActiveAgent aid db = (false, db)) ∧
    (∀ (db : DB) (a b : Nat) (ra rb : Agent),
      db.agents.find? (fun x => x.id == a) = some ra →
      db.agents.find? (fun x => x.id == b) = some rb → a ≠ b →
      (∃ r, getActiveAgent (setActiveAgent b (setActiveAgent a db).2).2 = some r ∧
        r.id = b ∧ r.is_active = true) ∧
      (∀ x ∈ (setActiveAgent b (setActiveAgent a db).2).2.agents,
        x.id = a → x.is_active = false)) := by
  refine ⟨?_, ?_, ?_, ?_, ?_, ?_, ?_⟩
  · intro db t nm h
    unfold addAgent
    by_cases hc : db.agents.any (fun a => a.telegram_id == t)
    · simpa [hc] using h
    · unfold AtMostOneActive activeCount at *
      simp only [Bool.not_eq_true] at hc
      simp only [hc, Bool.false_eq_true, if_false, List.countP_append]
      simpa using h
  · intro db aid h
    unfold removeAgent
    cases hf : db.agents.find? (fun a => a.id == aid) with
    | none => simpa using h
    | some a =>
      unfold AtMostOneActive activeCount at *
      have hsub : (db.agents.filter (fun x => x.id != aid)).Sublist db.agents :=
        List.filter_sublist _
      exact Nat.le_trans (hsub.countP_le _) h
  · intro db aid h
    unfold deactivateAgent
    cases hf : db.agents.find? (fun a => a.id == aid) with
    | none => simpa using h
    | some a =>
      unfold AtMostOneActive activeCount at *
      rw [List.countP_map]
      refine Nat.le_trans (List.countP_mono_left ?_) h
      intro x _ hx
      by_cases hid : (x.id == aid) = true
      · simp [Function.comp, hid] at hx
      · simpa [Function.comp, hid] using hx
  · intro db aid h hd
    unfold setActiveAgent
    cases hf : db.agents.find? (fun a => a.id == aid) with
    | none => simpa using h
    | some a =>
      unfold AtMostOneActive activeCount
      rw [List.countP_map]
      have hcomp : ((fun x : Agent => x.is_active) ∘
          fun x : Agent => { x with is_active := x.id == aid }) =
          (fun x : Agent => x.id == aid) := rfl
      rw [hcomp]
      exact countP_id_le_one hd
  · intro db t nm h
    by_cases hc : db.agents.any (fun a => a.telegram_id == t)
    · simp [addAgent, hc] at h
    · simp [addAgent, hc]
  · intro db aid h
    simp [setActiveAgent, h]
  · intro db a b ra rb ha hb hab
    have hrb0 := List.find?_some hb
    have hrb : rb.id = b := by simpa using hrb0
    have hd1 : setActiveAgent a db =
        (true, { db with
          agents := db.agents.map (fun x => { x with is_active := x.id == a }) }) := by
      simp [setActiveAgent, ha]
    have hcomp : ((fun x : Agent => x.id == b) ∘
        fun x : Agent => { x with is_active := x.id == a }) =
        (fun x : Agent => x.id == b) := rfl
    have hb1 : (db.agents.map (fun x => { x with is_active := x.id == a })).find?
        (fun x => x.id == b) = some { rb with is_active := rb.id == a } := by
      rw [List.find?_map, hcomp, hb]
      rfl
    have hagents : (setActiveAgent b (setActiveAgent a db).2).2.agents =
        (db.agents.map (fun x => { x with is_active := x.id == a })).map
          (fun x => { x with is_active := x.id == b }) := by
      rw [hd1]
      simp [setActiveAgent, hb1]
    constructor
    · have hcomp2 : ((fun x : Agent => x.is_active) ∘
          fun x : Agent => { x with is_active := x.id == b }) =
          (fun x : Agent => x.id == b) := rfl
      refine ⟨{ rb with is_active := rb.id == b }, ?_, by simp [hrb], by simp [hrb]⟩
      unfold getActiveAgent
      rw [hagents, List.find?_map, hcomp2, hb1]
      rfl
    · intro x hx hxa
      rw [hagents] at hx
      rcases mem_map_map_active hx with ⟨z, _, rfl⟩
      have hza : z.id = a := by simpa using hxa
      have hzb : (z.id == b) = false := by
        rw [hza]
        simpa using hab
      simp [hzb]

/-- C4 witness: the theorem applied at the concrete store `dbW`. -/
theorem agent_pool_single_active_witness :
    AtMostOneActive (addAgent 30 "Cal" dbW).2 ∧
    AtMostOneActive (removeAgent 2 dbW).2 ∧
    AtMostOneActive (deactivateAgent 2 dbW).2 ∧
    AtMostOneActive (setActiveAgent 1 dbW).2 ∧
    (addAgent 30 "Cal" dbW).2.agents = dbW.agents ++
      [{ id := dbW.nextAgentId, telegram_id := 30, name := "Cal", is_active := false }] ∧
    setActiveAgent 9 dbW = (false, dbW) ∧
    ((∃ r, getActiveAgent (setActiveAgent 2 (setActiveAgent 1 dbW).2).2 = some r ∧
        r.id = 2 ∧ r.is_active = true) ∧
      (∀ x ∈ (setActiveAgent 2 (setActiveAgent 1 dbW).2).2.agents,
        x.id = 1 → x.is_active = false)) :=
  ⟨agent_pool_single_active.1 dbW 30 "Cal" (by decide),
   agent_pool_single_active.2.1 dbW 2 (by decide),
   agent_pool_single_active.2.2.1 dbW 2 (by decide),
   agent_pool_single_active.2.2.2.1 dbW 1 (by decide) (by decide),
   agent_pool_single_active.2.2.2.2.1 dbW 30 "Cal" (by decide),
   agent_pool_single_active.2.2.2.2.2.1 dbW 9 (by decide),
   agent_pool_single_active.2.2.2.2.2.2 dbW 1 2 ⟨1, 10, "Alice", false⟩ ⟨2, 20, "Bea", true⟩
     (by decide) (by decide) (by decide)⟩

/-! ### C5: removeAgent cascade -/

/-- C5: for an existing agent id, `removeAgent` reports success and, in one
step with no observable intermediate state, deletes the agent row, any admin
entry sharing its platform id and the agent session, while touching nothing
else (other agents, other admins, other sessions, mappings and logs are
preserved); for an unknown id it reports failure ("Agent not found") and
leaves the store untouched. -/
theorem removeAgent_cascade_atomic :
    (∀ (db : DB) (aid : Nat) (rec : Agent),
      db.agents.find? (fun x => x.id == aid) = some rec →
      (removeAgent aid db).1 = true ∧
      (∀ x ∈ (removeAgent aid db).2.agents, x.id ≠ aid) ∧
      rec.telegram_id ∉ (removeAgent aid db).2.admins ∧
      getAgentSession rec.telegram_id (removeAgent aid db).2 = none ∧
      (removeAgent aid db).2.mappings = db.mappings ∧
      (removeAgent aid db).2.logs = db.logs ∧
      (∀ x ∈ db.agents, x.id ≠ aid → x ∈ (removeAgent aid db).2.agents) ∧
      (∀ t ∈ db.admins, t ≠ rec.telegram_id → t ∈ (removeAgent aid db).2.admins) ∧
      (∀ s ∈ db.sessions, s.agent_telegram_id ≠ rec.telegram_id →
        s ∈ (removeAgent aid db).2.sessions)) ∧
    (∀ (db : DB) (aid : Nat),
      db.agents.find? (fun x => x.id == aid) = none →
      removeAgent aid db = (false, db)) := by
  constructor
  · intro db aid rec hf
    have hval : removeAgent aid db = (true, { db with
        agents := db.agents.filter (fun x => x.id != aid),
        admins := db.admins.filter (fun t => t != rec.telegram_id),
        sessions := db.sessions.filter
          (fun s => s.agent_telegram_id != rec.telegram_id) }) := by
      simp [removeAgent, hf]
    rw [hval]
    refine ⟨rfl, ?_, ?_, ?_, rfl, rfl, ?_, ?_, ?_⟩
    · intro x hx
      have := (List.mem_filter.mp hx).2
      simpa using this
    · intro hmem
      have := (List.mem_filter.mp hmem).2
      simp at this
    · unfold getAgentSession
      rw [List.find?_eq_none]
      intro s hs
      have := (List.mem_filter.mp hs).2
      simpa using this
    · intro x hx hne
      exact List.mem_filter.mpr ⟨hx, by simpa using hne⟩
    · intro t ht hne
      exact List.mem_filter.mpr ⟨ht, by simpa using hne⟩
    · intro s hs hne
      exact List.mem_filter.mpr ⟨hs, by simpa using hne⟩
  · intro db aid hf
    simp [removeAgent, hf]

/-- C5 witness: the theorem applied at the concrete store `dbW` (removing
agent 2 with platform id 20) and at the unknown id 9. -/
theorem removeAgent_cascade_atomic_witness :
    ((removeAgent 2 dbW).1 = true ∧
      (∀ x ∈ (removeAgent 2 dbW).2.agents, x.id ≠ 2) ∧
      (20 : Int) ∉ (removeAgent 2 dbW).2.admins ∧
      getAgentSession 20 (removeAgent 2 dbW).2 = none ∧
      (removeAgent 2 dbW).2.mappings = dbW.mappings ∧
      (removeAgent 2 dbW).2.logs = dbW.logs ∧
      (∀ x ∈ dbW.agents, x.id ≠ 2 → x ∈ (removeAgent 2 dbW).2.agents) ∧
      (∀ t ∈ dbW.admins, t ≠ 20 → t ∈ (removeAgent 2 dbW).2.admins) ∧
      (∀ s ∈ dbW.sessions, s.agent_telegram_id ≠ 20 →
        s ∈ (removeAgent 2 dbW).2.sessions)) ∧
    removeAgent 9 dbW = (false, dbW) :=
  ⟨removeAgent_cascade_atomic.1 dbW 2 ⟨2, 20, "Bea", true⟩ (by decide),
   removeAgent_cascade_atomic.2 dbW 9 (by decide)⟩

/-! ### C1: admin precedence over routing -/

/-- C1 (amended): for text messages the admin check comes first, so any
registered admin — including one that is also an agent — only receives the
informational notice, with no state change and no transport call; for voice
messages the agent branch is checked first (server.js:1091 before 1135), so
the admin notice is only guaranteed for senders that are not agents.  The
counterexample shows a dual admin-and-agent identity whose voice message is
routed. -/
theorem admin_messages_not_routed :
    (∀ (send : Int → Payload → Except String Nat) (now : Nat) (sender : Int)
      (fn un : Option String) (text : String) (replyTo : Option Nat) (db : DB),
      startsWithSlash text = false → isAdmin sender db = true →
      handleText send now sender fn un text replyTo db = (.adminNotice, db, [])) ∧
    (∀ (send : Int → Payload → Except String Nat) (tr : TranscriptionOutcome)
      (now : Nat) (sender : Int) (fn un : Option String) (vfid : String)
      (replyTo : Option Nat) (db : DB),
      isAgent sender db = false → isAdmin sender db = true →
      handleVoice send tr now sender fn un vfid replyTo db = (.adminNotice, db, [])) := by
  constructor
  · intro send now sender fn un text replyTo db hcmd hadm
    simp [handleText, hcmd, hadm]
  · intro send tr now sender fn un vfid replyTo db hag hadm
    simp [handleVoice, hag, hadm]

/-- C1 witness: the theorem applied at the concrete store `dbW` with the
admin 99. -/
theorem admin_messages_not_routed_witness :
    handleText sendStub 9 99 none none "hello" none dbW = (.adminNotice, dbW, []) ∧
    handleVoice sendStub (.ok "text") 9 99 none none "vf" none dbW =
      (.adminNotice, dbW, []) :=
  ⟨admin_messages_not_routed.1 sendStub 9 99 none none "hello" none dbW
     (by decide) (by decide),
   admin_messages_not_routed.2 sendStub (.ok "text") 9 99 none none "vf" none dbW
     (by decide) (by decide)⟩

/-- C1 counterexample: in `dbDual` the identity 5 is registered both as admin
and as (active) agent with a session pointing at user 77; its inbound voice
message takes the agent branch, performs a transport call to user 77 and
appends a log entry — the claim that such a message is never routed and causes
no state change is false for the voice handler. -/
theorem admin_agent_voice_routed_cex :
    isAdmin 5 dbDual = true ∧ isAgent 5 dbDual = true ∧
    (handleVoice sendStub .failed 3 5 none none "vf" none dbDual).1 =
      .replySent 77 "Uri" ∧
    (handleVoice sendStub .failed 3 5 none none "vf" none dbDual).2.2 =
      [{ target := 77, payload := .voice "vf" none }] ∧
    (handleVoice sendStub .failed 3 5 none none "vf" none dbDual).2.1 ≠ dbDual := by
  decide

/-! ### C2: two-tier reply-target resolution -/

/-- C2: when an agent reply threads to a message whose mapping exists (with
the nonzero user id every platform identity has), the resolved target is the
mapping's stored user, regardless of the content of any session; the session
fallback is consulted exactly when there is no thread reference or the mapping
lookup misses; consequently the transport call of an active agent's threaded
text or voice reply goes to the mapping's user even if a different end-user
since rebound the agent's session. -/
theorem reply_target_mapping_beats_session :
    (∀ (sender : Int) (rid : Nat) (m : Mapping) (db : DB),
      getMessageMapping rid db = some m → m.user_id ≠ 0 →
      resolveTarget sender (some rid) db = (m.user_id, m.user_name)) ∧
    (∀ (sender : Int) (db : DB),
      resolveTarget sender none db = sessionFallback sender db) ∧
    (∀ (sender : Int) (rid : Nat) (db : DB),
      getMessageMapping rid db = none →
      resolveTarget sender (some rid) db = sessionFallback sender db) ∧
    (∀ (send : Int → Payload → Except String Nat) (now : Nat) (sender : Int)
      (fn un : Option String) (text : String) (rid : Nat) (m : Mapping)
      (db : DB) (agent : Agent),
      startsWithSlash text = false → isAdmin sender db = false →
      isAgent sender db = true →
      getMessageMapping rid db = some m → m.user_id ≠ 0 →
      getAgentByTelegramId sender db = some agent → agent.is_active = true →
      (handleText send now sender fn un text (some rid) db).2.2 =
        [{ target := m.user_id, payload := .text text }]) ∧
    (∀ (send : Int → Payload → Except String Nat) (tr : TranscriptionOutcome)
      (now : Nat) (sender : Int) (fn un : Option String) (vfid : String)
      (rid : Nat) (m : Mapping) (db : DB) (agent : Agent),
      isAgent sender db = true →
      getMessageMapping rid db = some m → m.user_id ≠ 0 →
      getAgentByTelegramId sender db = some agent → agent.is_active = true →
      (handleVoice send tr now sender fn un vfid (some rid) db).2.2 =
        [{ target := m.user_id, payload := .voice vfid none }]) := by
  refine ⟨?_, ?_, ?_, ?_, ?_⟩
  · intro sender rid m db hm h0
    exact resolveTarget_of_mapping hm h0
  · intro sender db
    exact resolveTarget_no_mapping (Or.inl rfl)
  · intro sender rid db hmiss
    exact resolveTarget_no_mapping (Or.inr ⟨rid, rfl, hmiss⟩)
  · intro send now sender fn un text rid m db agent hcmd hadm hag hm h0 hfind hact
    have ht : resolveTarget sender (some rid) db = (m.user_id, m.user_name) :=
      resolveTarget_of_mapping hm h0
    have hne : ((resolveTarget sender (some rid) db).1 == 0) = false := by
      rw [ht]
      simpa using h0
    cases hsend : send m.user_id (.text text) with
    | ok mid => simp [handleText, hcmd, hadm, hag, hne, hfind, hact, ht, h0, hsend]
    | error e => simp [handleText, hcmd, hadm, hag, hne, hfind, hact, ht, h0, hsend]
  · intro send tr now sender fn un vfid rid m db agent hag hm h0 hfind hact
    have ht : resolveTarget sender (some rid) db = (m.user_id, m.user_name) :=
      resolveTarget_of_mapping hm h0
    have hne : ((resolveTarget sender (some rid) db).1 == 0) = false := by
      rw [ht]
      simpa using h0
    cases hsend : send m.user_id (.voice vfid none) with
    | ok mid => simp [handleVoice, hag, hne, hfind, hact, ht, h0, hsend]
    | error e => simp [handleVoice, hag, hne, hfind, hact, ht, h0, hsend]

/-- C2 witness: in `dbW` the mapping for message 700 stores user 600 while
agent Bea's session stores user 500; a threaded reply resolves and is sent to
600, and the session fallback applies exactly on the no-thread and
mapping-miss paths. -/
theorem reply_target_mapping_beats_session_witness :
    resolveTarget 20 (some 700) dbW = (600, "Vik") ∧
    resolveTarget 20 none dbW = sessionFallback 20 dbW ∧
    resolveTarget 20 (some 999) dbW = sessionFallback 20 dbW ∧
    (handleText sendStub 9 20 none none "yo" (some 700) dbW).2.2 =
      [{ target := 600, payload := .text "yo" }] ∧
    (handleVoice sendStub .failed 9 20 none none "vf" (some 700) dbW).2.2 =
      [{ target := 600, payload := .voice "vf" none }] :=
  ⟨reply_target_mapping_beats_session.1 20 700 ⟨700, 600, "Vik"⟩ dbW
     (by decide) (by decide),
   reply_target_mapping_beats_session.2.1 20 dbW,
   reply_target_mapping_beats_session.2.2.1 20 999 dbW (by decide),
   reply_target_mapping_beats_session.2.2.2.1 sendStub 9 20 none none "yo" 700
     ⟨700, 600, "Vik"⟩ dbW ⟨2, 20, "Bea", true⟩ (by decide) (by decide) (by decide)
     (by decide) (by decide) (by decide) (by decide),
   reply_target_mapping_beats_session.2.2.2.2 sendStub .failed 9 20 none none "vf" 700
     ⟨700, 600, "Vik"⟩ dbW ⟨2, 20, "Bea", true⟩ (by decide) (by decide) (by decide)
     (by decide) (by decide)⟩

/-! ### C6: offline agent replies are blocked -/

/-- C6: a reply from an agent whose `is_active` flag is cleared fails with the
OFFLINE notice even though a target resolves: the store is unchanged, no
transport call is made, and hence no log entry is written — for the text
handler and the voice handler alike. -/
theorem offline_agent_reply_blocked :
    (∀ (send : Int → Payload → Except String Nat) (now : Nat) (sender : Int)
      (fn un : Option String) (text : String) (replyTo : Option Nat)
      (db : DB) (agent : Agent),
      startsWithSlash text = false → isAdmin sender db = false →
      getAgentByTelegramId sender db = some agent → agent.is_active = false →
      (resolveTarget sender replyTo db).1 ≠ 0 →
      handleText send now sender fn un text replyTo db = (.agentOffline, db, [])) ∧
    (∀ (send : Int → Payload → Except String Nat) (tr : TranscriptionOutcome)
      (now : Nat) (sender : Int) (fn un : Option String) (vfid : String)
      (replyTo : Option Nat) (db : DB) (agent : Agent),
      getAgentByTelegramId sender db = some agent → agent.is_active = false →
      (resolveTarget sender replyTo db).1 ≠ 0 →
      handleVoice send tr now sender fn un vfid replyTo db =
        (.agentOffline, db, [])) := by
  constructor
  · intro send now sender fn un text replyTo db agent hcmd hadm hfind hact ht
    have hag := isAgent_of_getAgentByTelegramId hfind
    have hne : ((resolveTarget sender replyTo db).1 == 0) = false := by
      simpa using ht
    simp [handleText, hcmd, hadm, hag, hne, hfind, hact]
  · intro send tr now sender fn un vfid replyTo db agent hfind hact ht
    have hag := isAgent_of_getAgentByTelegramId hfind
    have hne : ((resolveTarget sender replyTo db).1 == 0) = false := by
      simpa using ht
    simp [handleVoice, hag, hne, hfind, hact]

/-- C6 witness: agent Alice (platform id 10) is offline in `dbW` and replies
threading to mapped message 700 (target user 600). -/
theorem offline_agent_reply_blocked_witness :
    handleText sendStub 9 10 none none "yo" (some 700) dbW =
      (.agentOffline, dbW, []) ∧
    handleVoice sendStub .failed 9 10 none none "vf" (some 700) dbW =
      (.agentOffline, dbW, []) :=
  ⟨offline_agent_reply_blocked.1 sendStub 9 10 none none "yo" (some 700) dbW
     ⟨1, 10, "Alice", false⟩ (by decide) (by decide) (by decide) (by decide) (by decide),
   offline_agent_reply_blocked.2 sendStub .failed 9 10 none none "vf" (some 700) dbW
     ⟨1, 10, "Alice", false⟩ (by decide) (by decide) (by decide)⟩

/-! ### C7: replies without a resolvable target are blocked -/

/-- C7: an agent reply with no thread reference to a mapped message and no
session on file fails with the no-reply-target notice: the store is unchanged
and no transport call is made, in the text handler and the voice handler
alike. -/
theorem missing_target_reply_blocked :
    (∀ (send : Int → Payload → Except String Nat) (now : Nat) (sender : Int)
      (fn un : Option String) (text : String) (replyTo : Option Nat) (db : DB),
      startsWithSlash text = false → isAdmin sender db = false →
      isAgent sender db = true →
      (replyTo = none ∨ ∃ rid, replyTo = some rid ∧ getMessageMapping rid db = none) →
      getAgentSession sender db = none →
      handleText send now sender fn un text replyTo db =
        (.noReplyTarget, db, [])) ∧
    (∀ (send : Int → Payload → Except String Nat) (tr : TranscriptionOutcome)
      (now : Nat) (sender : Int) (fn un : Option String) (vfid : String)
      (replyTo : Option Nat) (db : DB),
      isAgent sender db = true →
      (replyTo = none ∨ ∃ rid, replyTo = some rid ∧ getMessageMapping rid db = none) →
      getAgentSession sender db = none →
      handleVoice send tr now sender fn un vfid replyTo db =
        (.noReplyTarget, db, [])) := by
  constructor
  · intro send now sender fn un text replyTo db hcmd hadm hag hmiss hs
    have ht : resolveTarget sender replyTo db = (0, "User") :=
      resolveTarget_none_of_no_session hmiss hs
    simp [handleText, hcmd, hadm, hag, ht]
  · intro send tr now sender fn un vfid replyTo db hag hmiss hs
    have ht : resolveTarget sender replyTo db = (0, "User") :=
      resolveTarget_none_of_no_session hmiss hs
    simp [handleVoice, hag, ht]

/-- C7 witness: agent Alice (platform id 10) has no session in `dbW` and sends
a plain, unthreaded reply. -/
theorem missing_target_reply_blocked_witness :
    handleText sendStub 9 10 none none "yo" none dbW = (.noReplyTarget, dbW, []) ∧
    handleVoice sendStub .failed 9 10 none none "vf" none dbW =
      (.noReplyTarget, dbW, []) :=
  ⟨missing_target_reply_blocked.1 sendStub 9 10 none none "yo" none dbW
     (by decide) (by decide) (by decide) (Or.inl rfl) (by decide),
   missing_target_reply_blocked.2 sendStub .failed 9 10 none none "vf" none dbW
     (by decide) (Or.inl rfl) (by decide)⟩

/-! ### C3: correlation state written only after a successful send -/

/-- C3: in the end-user branches, the mapping, session and log are written
only after the transport send succeeded: on a failed send the handler returns
an error notice to the user — for text classified by the `chat not found` /
`bot was blocked` cause test — with the store completely unchanged; on a
successful send (returning the outbound message id) the mapping keyed by that
id, the overwritten session and the appended log entry are all recorded. -/
theorem user_state_written_only_after_send :
    (∀ (send : Int → Payload → Except String Nat) (now : Nat) (sender : Int)
      (fn un : Option String) (text : String) (replyTo : Option Nat)
      (db : DB) (ag : Agent) (e : String),
      startsWithSlash text = false → isAdmin sender db = false →
      isAgent sender db = false → getActiveAgent db = some ag →
      send ag.telegram_id (.text (forwardText sender fn un text)) = .error e →
      handleText send now sender fn un text replyTo db =
        (.forwardFailed (errIndicatesUnstartedChat e), db,
         [{ target := ag.telegram_id,
            payload := .text (forwardText sender fn un text) }])) ∧
    (∀ (send : Int → Payload → Except String Nat) (now : Nat) (sender : Int)
      (fn un : Option String) (text : String) (replyTo : Option Nat)
      (db : DB) (ag : Agent) (mid : Nat),
      startsWithSlash text = false → isAdmin sender db = false →
      isAgent sender db = false → getActiveAgent db = some ag →
      send ag.telegram_id (.text (forwardText sender fn un text)) = .ok mid →
      handleText send now sender fn un text replyTo db =
        (.forwarded,
         logMessage sender (displayName fn un) ag.id ag.name .user_to_agent text now
           (setAgentSession ag.telegram_id sender (displayName fn un)
             (addMessageMapping mid sender (displayName fn un) db)),
         [{ target := ag.telegram_id,
            payload := .text (forwardText sender fn un text) }])) ∧
    (∀ (send : Int → Payload → Except String Nat) (tr : TranscriptionOutcome)
      (now : Nat) (sender : Int) (fn un : Option String) (vfid : String)
      (replyTo : Option Nat) (db : DB) (ag : Agent) (e : String),
      isAgent sender db = false → isAdmin sender db = false →
      getActiveAgent db = some ag →
      send ag.telegram_id
        (.voice vfid (some (voiceForwardHeader sender fn un (transcribeVoice tr)))) =
        .error e →
      handleVoice send tr now sender fn un vfid replyTo db =
        (.voiceForwardFailed, db,
         [{ target := ag.telegram_id,
            payload := .voice vfid
              (some (voiceForwardHeader sender fn un (transcribeVoice tr))) }])) := by
  refine ⟨?_, ?_, ?_⟩
  · intro send now sender fn un text replyTo db ag e hcmd hadm hag hact hsend
    simp [handleText, hcmd, hadm, hag, hact, hsend]
  · intro send now sender fn un text replyTo db ag mid hcmd hadm hag hact hsend
    simp [handleText, hcmd, hadm, hag, hact, hsend]
  · intro send tr now sender fn un vfid replyTo db ag e hag hadm hact hsend
    simp [handleVoice, hag, hadm, hact, hsend]

/-- C3 witness: end-user 777 messages `dbW` (active agent Bea, platform id
20) under a failing and under a succeeding transport. -/
theorem user_state_written_only_after_send_witness :
    handleText sendFail 9 777 (some "Ann") none "yo" none dbW =
      (.forwardFailed (errIndicatesUnstartedChat "chat not found"), dbW,
       [{ target := 20, payload := .text (forwardText 777 (some "Ann") none "yo") }]) ∧
    handleText sendStub 9 777 (some "Ann") none "yo" none dbW =
      (.forwarded,
       logMessage 777 (displayName (some "Ann") none) 2 "Bea" .user_to_agent "yo" 9
         (setAgentSession 20 777 (displayName (some "Ann") none)
           (addMessageMapping 900 777 (displayName (some "Ann") none) dbW)),
       [{ target := 20, payload := .text (forwardText 777 (some "Ann") none "yo") }]) ∧
    handleVoice sendFail .failed 9 777 (some "Ann") none "vf" none dbW =
      (.voiceForwardFailed, dbW,
       [{ target := 20,
          payload := .voice "vf"
            (some (voiceForwardHeader 777 (some "Ann") none
              (transcribeVoice .failed))) }]) :=
  ⟨user_state_written_only_after_send.1 sendFail 9 777 (some "Ann") none "yo" none dbW
     ⟨2, 20, "Bea", true⟩ "chat not found" (by decide) (by decide) (by decide)
     (by decide) rfl,
   user_state_written_only_after_send.2.1 sendStub 9 777 (some "Ann") none "yo" none dbW
     ⟨2, 20, "Bea", true⟩ 900 (by decide) (by decide) (by decide) (by decide) rfl,
   user_state_written_only_after_send.2.2 sendFail .failed 9 777 (some "Ann") none "vf"
     none dbW ⟨2, 20, "Bea", true⟩ "chat not found" (by decide) (by decide)
     (by decide) rfl⟩

/-! ### C8: voice transcription fail-open -/

/-- C8 (amended): when the transcription adapter throws, `transcribeVoice`
degrades to the placeholder string and delivery is not aborted: the original
voice payload is still forwarded to the active agent with the placeholder in
its caption, the mapping keyed by the outbound message id and the session are
still written, and a log entry is appended whose text is `"[Voice] "` followed
by the placeholder (the source logs `[Voice] ${transcription}`, not the bare
placeholder — see the counterexample). -/
theorem voice_transcription_failopen :
    ∀ (send : Int → Payload → Except String Nat) (now : Nat) (sender : Int)
      (fn un : Option String) (vfid : String) (replyTo : Option Nat)
      (db : DB) (ag : Agent) (mid : Nat),
      isAgent sender db = false → isAdmin sender db = false →
      getActiveAgent db = some ag →
      send ag.telegram_id
        (.voice vfid (some (voiceForwardHeader sender fn un
          (transcribeVoice .failed)))) = .ok mid →
      handleVoice send .failed now sender fn un vfid replyTo db =
        (.voiceForwarded,
         logMessage sender (displayName fn un) ag.id ag.name .user_to_agent
           ("[Voice] " ++ transcribeVoice .failed) now
           (setAgentSession ag.telegram_id sender (displayName fn un)
             (addMessageMapping mid sender (displayName fn un) db)),
         [{ target := ag.telegram_id,
            payload := .voice vfid (some (voiceForwardHeader sender fn un
              (transcribeVoice .failed))) }]) := by
  intro send now sender fn un vfid replyTo db ag mid hag hadm hact hsend
  simp [handleVoice, hag, hadm, hact, hsend]

/-- C8 witness: end-user 777 sends a voice message to `dbW` while the
transcription adapter throws; the transport succeeds with message id 900. -/
theorem voice_transcription_failopen_witness :
    handleVoice sendStub .failed 9 777 (some "Ann") none "vf" none dbW =
      (.voiceForwarded,
       logMessage 777 (displayName (some "Ann") none) 2 "Bea" .user_to_agent
         ("[Voice] " ++ transcribeVoice .failed) 9
         (setAgentSession 20 777 (displayName (some "Ann") none)
           (addMessageMapping 900 777 (displayName (some "Ann") none) dbW)),
       [{ target := 20,
          payload := .voice "vf" (some (voiceForwardHeader 777 (some "Ann") none
            (transcribeVoice .failed))) }]) :=
  voice_transcription_failopen sendStub 9 777 (some "Ann") none "vf" none dbW
    ⟨2, 20, "Bea", true⟩ 900 (by decide) (by decide) (by decide) rfl

/-- C8 counterexample: the text actually logged for a transcription-failed
voice message is `"[Voice] "` followed by the placeholder, which differs from
the placeholder itself — the claim "the logged text equals the placeholder
string" is false at this input. -/
theorem voice_logged_text_not_placeholder_cex :
    (handleVoice sendStub .failed 9 777 (some "Ann") none "vf" none dbW).2.1.logs.map
      (fun entry => entry.message) = ["hi", "[Voice] [Error transcribing voice message]"] ∧
    "[Voice] [Error transcribing voice message]" ≠ transcribeVoice .failed := by
  decide

/-! ### C10: agent replies leave mappings and sessions untouched -/

/-- C10: a successfully delivered agent reply (text or voice) appends exactly
one log entry and changes nothing else: the mapping table, every session, the
agent pool and the admin set are all left as they were, so the agent's
fallback reply target survives the agent's own replies. -/
theorem agent_reply_preserves_correlation_state :
    (∀ (send : Int → Payload → Except String Nat) (now : Nat) (sender : Int)
      (fn un : Option String) (text : String) (replyTo : Option Nat)
      (db : DB) (agent : Agent) (mid : Nat),
      startsWithSlash text = false → isAdmin sender db = false →
      getAgentByTelegramId sender db = some agent → agent.is_active = true →
      (resolveTarget sender replyTo db).1 ≠ 0 →
      send (resolveTarget sender replyTo db).1 (.text text) = .ok mid →
      (handleText send now sender fn un text replyTo db).2.1.mappings = db.mappings ∧
      (handleText send now sender fn un text replyTo db).2.1.sessions = db.sessions ∧
      (handleText send now sender fn un text replyTo db).2.1.agents = db.agents ∧
      (handleText send now sender fn un text replyTo db).2.1.admins = db.admins ∧
      (handleText send now sender fn un text replyTo db).2.1.logs = db.logs ++
        [{ timestamp := now, user_id := (resolveTarget sender replyTo db).1,
           user_name := (resolveTarget sender replyTo db).2, agent_id := agent.id,
           agent_name := agent.name, direction := .agent_to_user, message := text }]) ∧
    (∀ (send : Int → Payload → Except String Nat) (tr : TranscriptionOutcome)
      (now : Nat) (sender : Int) (fn un : Option String) (vfid : String)
      (replyTo : Option Nat) (db : DB) (agent : Agent) (mid : Nat),
      getAgentByTelegramId sender db = some agent → agent.is_active = true →
      (resolveTarget sender replyTo db).1 ≠ 0 →
      send (resolveTarget sender replyTo db).1 (.voice vfid none) = .ok mid →
      (handleVoice send tr now sender fn un vfid replyTo db).2.1.mappings = db.mappings ∧
      (handleVoice send tr now sender fn un vfid replyTo db).2.1.sessions = db.sessions ∧
      (handleVoice send tr now sender fn un vfid replyTo db).2.1.agents = db.agents ∧
      (handleVoice send tr now sender fn un vfid replyTo db).2.1.admins = db.admins ∧
      (handleVoice send tr now sender fn un vfid replyTo db).2.1.logs = db.logs ++
        [{ timestamp := now, user_id := (resolveTarget sender replyTo db).1,
           user_name := (resolveTarget sender replyTo db).2, agent_id := agent.id,
           agent_name := agent.name, direction := .agent_to_user,
           message := "[Voice Message]" }]) := by
  constructor
  · intro send now sender fn un text replyTo db agent mid hcmd hadm hfind hact ht hsend
    have hag := isAgent_of_getAgentByTelegramId hfind
    have hne : ((resolveTarget sender replyTo db).1 == 0) = false := by
      simpa using ht
    simp [handleText, hcmd, hadm, hag, hne, hfind, hact, hsend, logMessage]
  · intro send tr now sender fn un vfid replyTo db agent mid hfind hact ht hsend
    have hag := isAgent_of_getAgentByTelegramId hfind
    have hne : ((resolveTarget sender replyTo db).1 == 0) = false := by
      simpa using ht
    simp [handleVoice, hag, hne, hfind, hact, hsend, logMessage]

/-- C10 witness: active agent Bea (platform id 20) replies via her session
(user 500) by text and by voice in `dbW`. -/
theorem agent_reply_preserves_correlation_state_witness :
    ((handleText sendStub 9 20 none none "yo" none dbW).2.1.mappings = dbW.mappings ∧
      (handleText sendStub 9 20 none none "yo" none dbW).2.1.sessions = dbW.sessions ∧
      (handleText sendStub 9 20 none none "yo" none dbW).2.1.agents = dbW.agents ∧
      (handleText sendStub 9 20 none none "yo" none dbW).2.1.admins = dbW.admins ∧
      (handleText sendStub 9 20 none none "yo" none dbW).2.1.logs = dbW.logs ++
        [{ timestamp := 9, user_id := (resolveTarget 20 none dbW).1,
           user_name := (resolveTarget 20 none dbW).2, agent_id := 2,
           agent_name := "Bea", direction := .agent_to_user, message := "yo" }]) ∧
    ((handleVoice sendStub .failed 9 20 none none "vf" none dbW).2.1.mappings =
        dbW.mappings ∧
      (handleVoice sendStub .failed 9 20 none none "vf" none dbW).2.1.sessions =
        dbW.sessions ∧
      (handleVoice sendStub .failed 9 20 none none "vf" none dbW).2.1.agents =
        dbW.agents ∧
      (handleVoice sendStub .failed 9 20 none none "vf" none dbW).2.1.admins =
        dbW.admins ∧
      (handleVoice sendStub .failed 9 20 none none "vf" none dbW).2.1.logs =
        dbW.logs ++
        [{ timestamp := 9, user_id := (resolveTarget 20 none dbW).1,
           user_name := (resolveTarget 20 none dbW).2, agent_id := 2,
           agent_name := "Bea", direction := .agent_to_user,
           message := "[Voice Message]" }]) :=
  ⟨agent_reply_preserves_correlation_state.1 sendStub 9 20 none none "yo" none dbW
     ⟨2, 20, "Bea", true⟩ 900 (by decide) (by decide) (by decide) (by decide)
     (by decide) rfl,
   agent_reply_preserves_correlation_state.2 sendStub .failed 9 20 none none "vf" none
     dbW ⟨2, 20, "Bea", true⟩ 900 (by decide) (by decide) (by decide) rfl⟩
